import Mathlib

/-!
Shallow embedding of the glimmer shell crate (`crates/shell/src/lib.rs`):
the event-loop driver, window registry, deferred create/destroy queues,
key translation table and key-repeat tracking.

Modelling conventions:
- `winit::window::WindowId` is opaque, comparable and hashable; modelled as `Nat`.
- `Extent<u32, ScreenSpace>` is modelled as a pair of `Nat` width/height
  (no arithmetic is ever performed on extents, only equality tests).
- `Point<i32, ScreenSpace>` is modelled with `Int` coordinates.
- The `u16` repeat counter wraps, so increments are taken `% 65536`.
- The per-window application handler (`Handler : WindowHandler`) is an opaque
  trait object whose only observable behaviour at this layer is which callbacks
  the driver invokes on it; dispatch therefore returns a trace of callback
  invocations, and the boolean returned by `on_close_request` enters as a
  parameter.
- `HashMap<WindowId, WindowState>` is modelled as a list of `WindowState`
  keyed by the `id` field, with insert-replaces-existing semantics.
- A Rust `panic!` / `.expect(..)` failure is modelled by returning `none`.
-/

namespace Glimmer

/-- Mouse buttons (shell `MouseButton`); the `Other` payload is a `u16`. -/
inductive MouseButton
  | Left
  | Middle
  | Right
  | Other (code : Nat)
deriving DecidableEq, Repr

/-- The state of a button or key (shell `ButtonState`); the repeat payload is a `u16`. -/
inductive ButtonState
  | Pressed
  | Released
  | Repeated (count : Nat)
deriving DecidableEq, Repr

/-- The shell's symbolic key enumeration (shell `VirtualKeyCode`), in source order. -/
inductive VirtualKeyCode
  | Invalid
  | Key0 | Key1 | Key2 | Key3 | Key4 | Key5 | Key6 | Key7 | Key8 | Key9
  | A | B | C | D | E | F | G | H | I | J | K | L | M
  | N | O | P | Q | R | S | T | U | V | W | X | Y | Z
  | Keypad0 | Keypad1 | Keypad2 | Keypad3 | Keypad4
  | Keypad5 | Keypad6 | Keypad7 | Keypad8 | Keypad9
  | KeypadAdd | KeypadSubtract | KeypadMultiply | KeypadDivide | KeypadDecimal
  | Equals | Comma | Minus | Period
  | Semicolon | Slash | Grave | LBracket | Backslash | Rbracket | Apostrophe
  | Tab | Space
  | ImeKana | ImeKanji | ImeConvert | ImeNonConvert
  | Insert | Delete
  | Backspace | Enter | LShift | RShift | LControl | RControl
  | LMenu | RMenu | Pause | CapsLock | Escape
  | PageUp | PageDown | End | Home
  | Left | Right | Up | Down
  | NumLock | ScrollLock
  | F1 | F2 | F3 | F4 | F5 | F6 | F7 | F8 | F9 | F10 | F11 | F12
  | F13 | F14 | F15 | F16 | F17 | F18 | F19 | F20 | F21 | F22 | F23 | F24
  | LSuper | RSuper
  | Select | Snapshot
  | MediaNextTrack | MediaPrevTrack | MediaStop | MediaPlayPause
deriving DecidableEq, Repr

/-- The winit crate's raw key enumeration (`winit::event::VirtualKeyCode`,
winit 0.27), in declaration order, so that `toCtorIdx` coincides with the
Rust discriminant used by `as usize`. It has exactly 163 variants. -/
inductive WinitVirtualKeyCode
  | Key1 | Key2 | Key3 | Key4 | Key5 | Key6 | Key7 | Key8 | Key9 | Key0
  | A | B | C | D | E | F | G | H | I | J | K | L | M
  | N | O | P | Q | R | S | T | U | V | W | X | Y | Z
  | Escape
  | F1 | F2 | F3 | F4 | F5 | F6 | F7 | F8 | F9 | F10 | F11 | F12
  | F13 | F14 | F15 | F16 | F17 | F18 | F19 | F20 | F21 | F22 | F23 | F24
  | Snapshot | Scroll | Pause
  | Insert | Home | Delete | End | PageDown | PageUp
  | Left | Up | Right | Down
  | Back | Return | Space | Compose | Caret | Numlock
  | Numpad0 | Numpad1 | Numpad2 | Numpad3 | Numpad4
  | Numpad5 | Numpad6 | Numpad7 | Numpad8 | Numpad9
  | NumpadAdd | NumpadDivide | NumpadDecimal | NumpadComma
  | NumpadEnter | NumpadEquals | NumpadMultiply | NumpadSubtract
  | AbntC1 | AbntC2 | Apostrophe | Apps | Asterisk | At | Ax
  | Backslash | Calculator | Capital | Colon | Comma | Convert
  | Equals | Grave | Kana | Kanji | LAlt | LBracket | LControl | LShift | LWin
  | Mail | MediaSelect | MediaStop | Minus | Mute | MyComputer
  | NavigateForward | NavigateBackward | NextTrack | NoConvert | OEM102
  | Period | PlayPause | Plus | Power | PrevTrack
  | RAlt | RBracket | RControl | RShift | RWin
  | Semicolon | Slash | Sleep | Stop | Sysrq | Tab | Underline | Unlabeled
  | VolumeDown | VolumeUp | Wake
  | WebBack | WebFavorites | WebForward | WebHome | WebRefresh | WebSearch | WebStop
  | Yen | Copy | Paste | Cut
deriving DecidableEq, Repr

/-- `winit::event::MouseButton`. -/
inductive WinitMouseButton
  | Left
  | Right
  | Middle
  | Other (code : Nat)
deriving DecidableEq, Repr

/-- `winit::event::ElementState`. -/
inductive ElementState
  | Pressed
  | Released
deriving DecidableEq, Repr

/-- `winit::event::KeyboardInput`: the raw keyboard event payload.
Equality of two values compares every field, as `#[derive(PartialEq)]` does
in winit. -/
structure KeyboardInput where
  scancode : Nat
  state : ElementState
  virtual_keycode : Option WinitVirtualKeyCode
deriving DecidableEq, Repr

/-- `Extent<u32, ScreenSpace>`. -/
structure Extent where
  width : Nat
  height : Nat
deriving DecidableEq, Repr

/-- `Point<i32, ScreenSpace>`. -/
structure ScreenPoint where
  x : Int
  y : Int
deriving DecidableEq, Repr

/-- The list of `table[winit_code as usize] = shell_code` assignments that
build `KEY_MAP`, in source order. -/
def keyMapEntries : List (WinitVirtualKeyCode × VirtualKeyCode) :=
  [ (WinitVirtualKeyCode.Key1, VirtualKeyCode.Key1),
    (WinitVirtualKeyCode.Key2, VirtualKeyCode.Key2),
    (WinitVirtualKeyCode.Key3, VirtualKeyCode.Key3),
    (WinitVirtualKeyCode.Key4, VirtualKeyCode.Key4),
    (WinitVirtualKeyCode.Key5, VirtualKeyCode.Key5),
    (WinitVirtualKeyCode.Key6, VirtualKeyCode.Key6),
    (WinitVirtualKeyCode.Key7, VirtualKeyCode.Key7),
    (WinitVirtualKeyCode.Key8, VirtualKeyCode.Key8),
    (WinitVirtualKeyCode.Key9, VirtualKeyCode.Key9),
    (WinitVirtualKeyCode.Key0, VirtualKeyCode.Key0),
    (WinitVirtualKeyCode.A, VirtualKeyCode.A),
    (WinitVirtualKeyCode.B, VirtualKeyCode.B),
    (WinitVirtualKeyCode.C, VirtualKeyCode.C),
    (WinitVirtualKeyCode.D, VirtualKeyCode.D),
    (WinitVirtualKeyCode.E, VirtualKeyCode.E),
    (WinitVirtualKeyCode.F, VirtualKeyCode.F),
    (WinitVirtualKeyCode.G, VirtualKeyCode.G),
    (WinitVirtualKeyCode.H, VirtualKeyCode.H),
    (WinitVirtualKeyCode.I, VirtualKeyCode.I),
    (WinitVirtualKeyCode.J, VirtualKeyCode.J),
    (WinitVirtualKeyCode.K, VirtualKeyCode.K),
    (WinitVirtualKeyCode.L, VirtualKeyCode.L),
    (WinitVirtualKeyCode.M, VirtualKeyCode.M),
    (WinitVirtualKeyCode.N, VirtualKeyCode.N),
    (WinitVirtualKeyCode.O, VirtualKeyCode.O),
    (WinitVirtualKeyCode.P, VirtualKeyCode.P),
    (WinitVirtualKeyCode.Q, VirtualKeyCode.Q),
    (WinitVirtualKeyCode.R, VirtualKeyCode.R),
    (WinitVirtualKeyCode.S, VirtualKeyCode.S),
    (WinitVirtualKeyCode.T, VirtualKeyCode.T),
    (WinitVirtualKeyCode.U, VirtualKeyCode.U),
    (WinitVirtualKeyCode.V, VirtualKeyCode.V),
    (WinitVirtualKeyCode.W, VirtualKeyCode.W),
    (WinitVirtualKeyCode.X, VirtualKeyCode.X),
    (WinitVirtualKeyCode.Y, VirtualKeyCode.Y),
    (WinitVirtualKeyCode.Z, VirtualKeyCode.Z),
    (WinitVirtualKeyCode.Numpad1, VirtualKeyCode.Keypad1),
    (WinitVirtualKeyCode.Numpad2, VirtualKeyCode.Keypad2),
    (WinitVirtualKeyCode.Numpad3, VirtualKeyCode.Keypad3),
    (WinitVirtualKeyCode.Numpad4, VirtualKeyCode.Keypad4),
    (WinitVirtualKeyCode.Numpad5, VirtualKeyCode.Keypad5),
    (WinitVirtualKeyCode.Numpad6, VirtualKeyCode.Keypad6),
    (WinitVirtualKeyCode.Numpad7, VirtualKeyCode.Keypad7),
    (WinitVirtualKeyCode.Numpad8, VirtualKeyCode.Keypad8),
    (WinitVirtualKeyCode.Numpad9, VirtualKeyCode.Keypad9),
    (WinitVirtualKeyCode.Numpad0, VirtualKeyCode.Keypad0),
    (WinitVirtualKeyCode.NumpadAdd, VirtualKeyCode.KeypadAdd),
    (WinitVirtualKeyCode.NumpadSubtract, VirtualKeyCode.KeypadSubtract),
    (WinitVirtualKeyCode.NumpadMultiply, VirtualKeyCode.KeypadMultiply),
    (WinitVirtualKeyCode.NumpadDivide, VirtualKeyCode.KeypadDivide),
    (WinitVirtualKeyCode.NumpadDecimal, VirtualKeyCode.KeypadDecimal),
    (WinitVirtualKeyCode.Equals, VirtualKeyCode.Equals),
    (WinitVirtualKeyCode.Comma, VirtualKeyCode.Comma),
    (WinitVirtualKeyCode.Minus, VirtualKeyCode.Minus),
    (WinitVirtualKeyCode.Period, VirtualKeyCode.Period),
    (WinitVirtualKeyCode.Semicolon, VirtualKeyCode.Semicolon),
    (WinitVirtualKeyCode.Slash, VirtualKeyCode.Slash),
    (WinitVirtualKeyCode.Grave, VirtualKeyCode.Grave),
    (WinitVirtualKeyCode.LBracket, VirtualKeyCode.LBracket),
    (WinitVirtualKeyCode.Backslash, VirtualKeyCode.Backslash),
    (WinitVirtualKeyCode.RBracket, VirtualKeyCode.Rbracket),
    (WinitVirtualKeyCode.Apostrophe, VirtualKeyCode.Apostrophe),
    (WinitVirtualKeyCode.Tab, VirtualKeyCode.Tab),
    (WinitVirtualKeyCode.Space, VirtualKeyCode.Space),
    (WinitVirtualKeyCode.Kana, VirtualKeyCode.ImeKana),
    (WinitVirtualKeyCode.Kanji, VirtualKeyCode.ImeKanji),
    (WinitVirtualKeyCode.Convert, VirtualKeyCode.ImeConvert),
    (WinitVirtualKeyCode.NoConvert, VirtualKeyCode.ImeNonConvert),
    (WinitVirtualKeyCode.Insert, VirtualKeyCode.Insert),
    (WinitVirtualKeyCode.Delete, VirtualKeyCode.Delete),
    (WinitVirtualKeyCode.Back, VirtualKeyCode.Backspace),
    (WinitVirtualKeyCode.Return, VirtualKeyCode.Enter),
    (WinitVirtualKeyCode.LShift, VirtualKeyCode.LShift),
    (WinitVirtualKeyCode.RShift, VirtualKeyCode.RShift),
    (WinitVirtualKeyCode.LControl, VirtualKeyCode.LControl),
    (WinitVirtualKeyCode.RControl, VirtualKeyCode.RControl),
    (WinitVirtualKeyCode.LAlt, VirtualKeyCode.LMenu),
    (WinitVirtualKeyCode.RAlt, VirtualKeyCode.RMenu),
    (WinitVirtualKeyCode.Pause, VirtualKeyCode.Pause),
    (WinitVirtualKeyCode.Capital, VirtualKeyCode.CapsLock),
    (WinitVirtualKeyCode.Escape, VirtualKeyCode.Escape),
    (WinitVirtualKeyCode.PageUp, VirtualKeyCode.PageUp),
    (WinitVirtualKeyCode.PageDown, VirtualKeyCode.PageDown),
    (WinitVirtualKeyCode.Home, VirtualKeyCode.Home),
    (WinitVirtualKeyCode.End, VirtualKeyCode.End),
    (WinitVirtualKeyCode.Left, VirtualKeyCode.Left),
    (WinitVirtualKeyCode.Right, VirtualKeyCode.Right),
    (WinitVirtualKeyCode.Up, VirtualKeyCode.Up),
    (WinitVirtualKeyCode.Down, VirtualKeyCode.Down),
    (WinitVirtualKeyCode.Scroll, VirtualKeyCode.ScrollLock),
    (WinitVirtualKeyCode.Numlock, VirtualKeyCode.NumLock),
    (WinitVirtualKeyCode.F1, VirtualKeyCode.F1),
    (WinitVirtualKeyCode.F2, VirtualKeyCode.F2),
    (WinitVirtualKeyCode.F3, VirtualKeyCode.F3),
    (WinitVirtualKeyCode.F4, VirtualKeyCode.F4),
    (WinitVirtualKeyCode.F5, VirtualKeyCode.F5),
    (WinitVirtualKeyCode.F6, VirtualKeyCode.F6),
    (WinitVirtualKeyCode.F7, VirtualKeyCode.F7),
    (WinitVirtualKeyCode.F8, VirtualKeyCode.F8),
    (WinitVirtualKeyCode.F9, VirtualKeyCode.F9),
    (WinitVirtualKeyCode.F10, VirtualKeyCode.F10),
    (WinitVirtualKeyCode.F11, VirtualKeyCode.F11),
    (WinitVirtualKeyCode.F12, VirtualKeyCode.F12),
    (WinitVirtualKeyCode.F13, VirtualKeyCode.F13),
    (WinitVirtualKeyCode.F14, VirtualKeyCode.F14),
    (WinitVirtualKeyCode.F15, VirtualKeyCode.F15),
    (WinitVirtualKeyCode.F16, VirtualKeyCode.F16),
    (WinitVirtualKeyCode.F17, VirtualKeyCode.F17),
    (WinitVirtualKeyCode.F18, VirtualKeyCode.F18),
    (WinitVirtualKeyCode.F19, VirtualKeyCode.F19),
    (WinitVirtualKeyCode.F20, VirtualKeyCode.F20),
    (WinitVirtualKeyCode.F21, VirtualKeyCode.F21),
    (WinitVirtualKeyCode.F22, VirtualKeyCode.F22),
    (WinitVirtualKeyCode.F23, VirtualKeyCode.F23),
    (WinitVirtualKeyCode.F24, VirtualKeyCode.F24),
    (WinitVirtualKeyCode.LWin, VirtualKeyCode.LSuper),
    (WinitVirtualKeyCode.RWin, VirtualKeyCode.RSuper),
    (WinitVirtualKeyCode.MediaSelect, VirtualKeyCode.Select),
    (WinitVirtualKeyCode.Snapshot, VirtualKeyCode.Snapshot),
    (WinitVirtualKeyCode.NextTrack, VirtualKeyCode.MediaNextTrack),
    (WinitVirtualKeyCode.PrevTrack, VirtualKeyCode.MediaPrevTrack),
    (WinitVirtualKeyCode.MediaStop, VirtualKeyCode.MediaStop),
    (WinitVirtualKeyCode.PlayPause, VirtualKeyCode.MediaPlayPause) ]

/-- `KEY_MAP`: a 163-entry table, initialised to `Invalid` everywhere and
then overwritten at each winit discriminant listed in `keyMapEntries`. -/
def KEY_MAP : List VirtualKeyCode :=
  keyMapEntries.foldl (fun table e => table.set e.1.toCtorIdx e.2)
    (List.replicate 163 VirtualKeyCode.Invalid)

/-- `KEY_MAP[virtual_keycode as usize]`: the raw-to-symbolic translation
performed during keyboard dispatch. The default is irrelevant because the
index is always in bounds (see the C10 theorem). -/
def translateKey (vk : WinitVirtualKeyCode) : VirtualKeyCode :=
  KEY_MAP.getD vk.toCtorIdx VirtualKeyCode.Invalid

/-- A registry entry (shell `WindowState<Handler>`). The opaque `handler`
field is omitted: its observable behaviour is the trace of callbacks the
driver invokes on it, which the dispatch functions below return. -/
structure WindowState where
  id : Nat
  extent : Extent
  cursor_position : ScreenPoint
  repeated_key : Option (KeyboardInput × Nat)
deriving DecidableEq, Repr

/-- The `windows : HashMap<WindowId, WindowState>` registry, keyed by the
`id` field of each entry. -/
abbrev Registry := List WindowState

/-- The ids currently registered. -/
def registryIds (windows : Registry) : List Nat :=
  windows.map (fun w => w.id)

/-- `windows.get_mut(&id)` (lookup half). -/
def lookupWindow (windows : Registry) (id : Nat) : Option WindowState :=
  windows.find? (fun w => w.id = id)

/-- In-place mutation of one entry through `windows.get_mut(&id)`. -/
def updateWindow (windows : Registry) (id : Nat) (f : WindowState → WindowState) :
    Registry :=
  windows.map (fun w => if w.id = id then f w else w)

/-- `windows.insert(w.id, w)`: replaces an existing entry with the same id,
otherwise adds a new one. -/
def insertWindow (windows : Registry) (w : WindowState) : Registry :=
  if windows.any (fun x => x.id = w.id) then
    windows.map (fun x => if x.id = w.id then w else x)
  else
    windows ++ [w]

/-- `windows.remove(&id)`: returns the removed state and the remaining
registry, or `none` when the id is absent. -/
def removeWindow (windows : Registry) (id : Nat) :
    Option (WindowState × Registry) :=
  match lookupWindow windows id with
  | none => none
  | some w => some (w, windows.filter (fun x => ¬ x.id = id))

/-- `for window in buffered_window_creates.drain(..) { windows.insert(..) }`:
the pending creates are inserted into the registry in spawn order. -/
def drainCreates (windows : Registry) (creates : List WindowState) : Registry :=
  creates.foldl insertWindow windows

/-- `for window_id in buffered_window_destroys.borrow_mut().drain(..) { .. }`:
each queued id is removed from the registry in queue order and `on_destroy`
is fired on the removed state. Returns the final registry and the ordered
list of ids whose handlers received `on_destroy`; `none` models the
`expect("cannot destroy a window twice")` panic when an id is absent. -/
def drainDestroys (windows : Registry) (destroys : List Nat) :
    Option (Registry × List Nat) :=
  match destroys with
  | [] => some (windows, [])
  | id :: rest =>
    match removeWindow windows id with
    | none => none
    | some (_, windows') =>
      match drainDestroys windows' rest with
      | none => none
      | some (final, destroyed) => some (final, id :: destroyed)

/-- The state of the buffers and registry after the end-of-iteration drain. -/
structure DrainResult where
  windows : Registry
  /-- `buffered_window_creates` after the drain (always emptied). -/
  creates : List WindowState
  /-- `buffered_window_destroys` after the drain (always emptied). -/
  destroyQueue : List Nat
  /-- Ids whose handlers received `on_destroy`, in queue order. -/
  destroyed : List Nat
deriving DecidableEq, Repr

/-- The end-of-iteration drain performed at the bottom of the event-loop
closure: all pending creates are inserted first, then all queued destroys
are removed. `none` models the double-destroy panic. -/
def endOfIteration (windows : Registry) (creates : List WindowState)
    (destroys : List Nat) : Option DrainResult :=
  match drainDestroys (drainCreates windows creates) destroys with
  | none => none
  | some (final, destroyed) => some ⟨final, [], [], destroyed⟩

/-- `winit::event::WindowEvent`, restricted to the variants the shell's
match statement handles; every other variant falls into `Other` (the `_ => {}`
arm). The `f64` scale factor of `ScaleFactorChanged` is passed through to the
handler untouched and is not inspected by the shell, so it is elided. -/
inductive WindowEventKind
  | Resized (extent : Extent)
  | CloseRequested
  | CursorMoved (position : ScreenPoint)
  | MouseInput (state : ElementState) (button : WinitMouseButton)
  | KeyboardInput (input : KeyboardInput)
  | ScaleFactorChanged (new_inner_size : Extent)
  | Other
deriving DecidableEq, Repr

/-- `winit::event::Event`, restricted to the variants the shell's match
statement handles. -/
inductive Event
  | WindowEvent (window_id : Nat) (event : WindowEventKind)
  | MainEventsCleared
  | RedrawRequested (window_id : Nat)
  | Other
deriving DecidableEq, Repr

/-- One recorded handler invocation. -/
inductive Callback
  | on_destroy (id : Nat)
  | on_close_request (id : Nat)
  | on_mouse_button (id : Nat) (button : MouseButton) (state : ButtonState)
      (pos : ScreenPoint)
  | on_cursor_move (id : Nat) (pos : ScreenPoint)
  | on_key (id : Nat) (key : VirtualKeyCode) (state : ButtonState)
  | on_resize (id : Nat) (size : Extent)
  | on_rescale (id : Nat) (size : Extent)
  | on_idle (id : Nat)
  | on_redraw (id : Nat)
deriving DecidableEq, Repr

/-- The translation of `winit::event::MouseButton` in the `MouseInput` arm. -/
def translateButton (b : WinitMouseButton) : MouseButton :=
  match b with
  | .Left => .Left
  | .Right => .Right
  | .Middle => .Middle
  | .Other code => .Other code

/-- The translation of `winit::event::ElementState` in the `MouseInput` arm. -/
def translateElementState (s : ElementState) : ButtonState :=
  match s with
  | .Pressed => .Pressed
  | .Released => .Released

/-- Result of dispatching one raw event (the `match event` statement of the
loop closure), before the end-of-iteration drain. -/
structure DispatchResult where
  windows : Registry
  destroyQueue : List Nat
  /-- Handler invocations, in order. -/
  trace : List Callback
  /-- `*control_flow = ControlFlow::Exit` was executed. -/
  exitFlag : Bool
  /-- The closure fell through to the drain code at the bottom (an early
  `return` in the Rust skips it). -/
  reachedDrain : Bool
deriving DecidableEq, Repr

/-- `window_state.cursor_position = as_point(position.cast())`. -/
def setCursor (p : ScreenPoint) (w : WindowState) : WindowState :=
  { w with cursor_position := p }

/-- `window_state.repeated_key = r`. -/
def setRepeatedKey (r : Option (KeyboardInput × Nat)) (w : WindowState) :
    WindowState :=
  { w with repeated_key := r }

/-- Dispatch of one raw event to the registry, mirroring the `match event`
statement of the `run` closure. `closeResponse` is the boolean the targeted
handler's `on_close_request` returns. `none` models the
`expect("the window must exist ..")` panic on a redraw for an unknown id. -/
def dispatchEvent (windows : Registry) (destroyQueue : List Nat) (ev : Event)
    (closeResponse : Bool) : Option DispatchResult :=
  match ev with
  | .WindowEvent window_id event =>
    match lookupWindow windows window_id with
    | none =>
        -- The window in question has been 'destroyed': drop the event,
        -- request exit when the registry is empty, and return early.
        some ⟨windows, destroyQueue, [], windows.isEmpty, false⟩
    | some window_state =>
      match event with
      | .Resized extent =>
          if ¬ extent = window_state.extent then
            some ⟨windows, destroyQueue, [.on_resize window_id extent],
                  false, true⟩
          else
            some ⟨windows, destroyQueue, [], false, true⟩
      | .CloseRequested =>
          if closeResponse then
            some ⟨windows, destroyQueue ++ [window_id],
                  [.on_close_request window_id], false, true⟩
          else
            some ⟨windows, destroyQueue, [.on_close_request window_id],
                  false, true⟩
      | .CursorMoved position =>
          some ⟨updateWindow windows window_id (setCursor position),
                destroyQueue, [.on_cursor_move window_id position], false, true⟩
      | .MouseInput state button =>
          some ⟨windows, destroyQueue,
                [.on_mouse_button window_id (translateButton button)
                    (translateElementState state) window_state.cursor_position],
                false, true⟩
      | .KeyboardInput input =>
        match input.virtual_keycode with
        | none =>
            -- `let Some(virtual_keycode) = .. else { return; }`
            some ⟨windows, destroyQueue, [], false, false⟩
        | some vk =>
          let virtual_keycode := translateKey vk
          match input.state with
          | .Pressed =>
            match window_state.repeated_key with
            | some (repeated_key, count) =>
              if repeated_key = input then
                some ⟨updateWindow windows window_id
                        (setRepeatedKey (some (input, (count + 1) % 65536))),
                      destroyQueue,
                      [.on_key window_id virtual_keycode
                          (.Repeated ((count + 1) % 65536))],
                      false, true⟩
              else
                -- No `else` arm in the source: the event is ignored.
                some ⟨windows, destroyQueue, [], false, true⟩
            | none =>
                some ⟨updateWindow windows window_id
                        (setRepeatedKey (some (input, 0))),
                      destroyQueue,
                      [.on_key window_id virtual_keycode .Pressed],
                      false, true⟩
          | .Released =>
              some ⟨updateWindow windows window_id (setRepeatedKey none),
                    destroyQueue,
                    [.on_key window_id virtual_keycode .Released],
                    false, true⟩
      | .ScaleFactorChanged new_inner_size =>
          some ⟨windows, destroyQueue,
                [.on_rescale window_id new_inner_size], false, true⟩
      | .Other =>
          some ⟨windows, destroyQueue, [], false, true⟩
  | .MainEventsCleared =>
      some ⟨windows, destroyQueue,
            windows.map (fun w => .on_idle w.id), false, true⟩
  | .RedrawRequested window_id =>
    match lookupWindow windows window_id with
    | none => none
    | some _ =>
        some ⟨windows, destroyQueue, [.on_redraw window_id], false, true⟩
  | .Other =>
      some ⟨windows, destroyQueue, [], false, true⟩

/-- State of the loop carried across iterations. -/
structure IterationResult where
  windows : Registry
  creates : List WindowState
  destroyQueue : List Nat
  trace : List Callback
  exitFlag : Bool
deriving DecidableEq, Repr

/-- One full invocation of the `run` event-loop closure: event dispatch
followed, when the dispatch falls through, by the end-of-iteration drain of
pending creates and queued destroys. `creates` is the content of
`buffered_window_creates` when the drain starts (the descriptors spawned by
handlers during this dispatch, in spawn order, after any left from before).
`none` models either dispatch panic or the double-destroy panic. -/
def runIteration (windows : Registry) (creates : List WindowState)
    (destroyQueue : List Nat) (ev : Event) (closeResponse : Bool) :
    Option IterationResult :=
  match dispatchEvent windows destroyQueue ev closeResponse with
  | none => none
  | some r =>
    if r.reachedDrain then
      match endOfIteration r.windows creates r.destroyQueue with
      | none => none
      | some d =>
          some ⟨d.windows, d.creates, d.destroyQueue,
                r.trace ++ d.destroyed.map Callback.on_destroy, r.exitFlag⟩
    else
      some ⟨r.windows, creates, r.destroyQueue, r.trace, r.exitFlag⟩

/-- `Window::destroy`: `self.deferred_destroy.borrow_mut().push(self.inner.id())`.
It only appends the id to the shared deferred-destroy queue; nothing is
deduplicated and nothing is removed synchronously. -/
def windowDestroy (deferred : List Nat) (id : Nat) : List Nat :=
  deferred ++ [id]

/-- A concrete registry entry: window 1 at 800×600 with no repeat tracker. -/
def w800 : WindowState :=
  { id := 1, extent := ⟨800, 600⟩, cursor_position := ⟨0, 0⟩, repeated_key := none }

/-- A concrete key-down raw event for the A key. -/
def inputA : KeyboardInput :=
  { scancode := 30, state := .Pressed, virtual_keycode := some WinitVirtualKeyCode.A }

/-- A concrete key-down raw event for the B key (differs from `inputA`). -/
def inputB : KeyboardInput :=
  { scancode := 48, state := .Pressed, virtual_keycode := some WinitVirtualKeyCode.B }

/-- Window 1 with an in-progress repeat tracker for `inputA` at count 0. -/
def wTrackA : WindowState :=
  { id := 1, extent := ⟨800, 600⟩, cursor_position := ⟨0, 0⟩,
    repeated_key := some (inputA, 0) }

/-- A concrete key-down raw event whose winit code (`Compose`) is never
assigned in `KEY_MAP`, so its table entry is the `Invalid` sentinel. -/
def composeInput : KeyboardInput :=
  { scancode := 0, state := .Pressed,
    virtual_keycode := some WinitVirtualKeyCode.Compose }

/-- A concrete raw keyboard event carrying no virtual key code at all. -/
def noKeyInput : KeyboardInput :=
  { scancode := 99, state := .Pressed, virtual_keycode := none }

/-- The dispatch result produced by delivering `Resized(1024×600)` to
`[w800]`: `on_resize` fires but the stored extent stays 800×600. -/
def resize1024Result : DispatchResult :=
  { windows := [w800], destroyQueue := [],
    trace := [Callback.on_resize 1 ⟨1024, 600⟩], exitFlag := false,
    reachedDrain := true }

section RegistryLemmas

/-- `lookupWindow` fails exactly on ids that are not registered. -/
theorem lookupWindow_eq_none_iff (m : Registry) (i : Nat) :
    lookupWindow m i = none ↔ i ∉ registryIds m := by
  simp only [lookupWindow, List.find?_eq_none, registryIds, List.mem_map,
    decide_eq_true_eq]
  constructor
  · rintro h ⟨w, hw, hid⟩
    exact h w hw hid
  · intro h w hw hid
    exact h ⟨w, hw, hid⟩

/-- A successful `lookupWindow` returns an entry with the looked-up id. -/
theorem lookupWindow_some_id (m : Registry) (i : Nat) (w : WindowState)
    (h : lookupWindow m i = some w) : w.id = i := by
  have := List.find?_some h
  simpa [decide_eq_true_eq] using this

/-- Ids after `insertWindow`: the inserted id joins the existing ones. -/
theorem mem_registryIds_insertWindow (m : Registry) (w : WindowState) (i : Nat) :
    i ∈ registryIds (insertWindow m w) ↔ i ∈ registryIds m ∨ i = w.id := by
  simp only [insertWindow]
  by_cases hany : m.any (fun x => x.id = w.id)
  · simp only [hany, if_true]
    have hmem : w.id ∈ registryIds m := by
      rcases (List.any_eq_true.mp hany) with ⟨x, hx, hid⟩
      simp only [decide_eq_true_eq] at hid
      exact List.mem_map.mpr ⟨x, hx, hid⟩
    constructor
    · intro h
      rcases List.mem_map.mp h with ⟨x, hx, hid⟩
      rcases List.mem_map.mp hx with ⟨y, hy, hxy⟩
      by_cases hcase : y.id = w.id
      · simp only [hcase, if_true] at hxy
        subst hxy
        exact Or.inr hid.symm
      · simp only [hcase, if_false] at hxy
        subst hxy
        exact Or.inl (List.mem_map.mpr ⟨y, hy, hid⟩)
    · intro h
      rcases h with h | h
      · rcases List.mem_map.mp h with ⟨y, hy, hid⟩
        by_cases hcase : y.id = w.id
        · subst hid
          refine List.mem_map.mpr ⟨w, List.mem_map.mpr ⟨y, hy, ?_⟩, ?_⟩
          · simp [hcase]
          · exact hcase.symm ▸ rfl
        · refine List.mem_map.mpr ⟨y, List.mem_map.mpr ⟨y, hy, ?_⟩, hid⟩
          simp [hcase]
      · subst h
        rcases List.mem_map.mp hmem with ⟨y, hy, hid⟩
        refine List.mem_map.mpr ⟨w, List.mem_map.mpr ⟨y, hy, ?_⟩, rfl⟩
        simp [hid]
  · rw [if_neg hany]
    simp only [registryIds, List.map_append, List.map_cons, List.map_nil,
      List.mem_append, List.mem_singleton]

/-- `insertWindow` preserves distinctness of the registered ids. -/
theorem nodup_registryIds_insertWindow (m : Registry) (w : WindowState)
    (h : (registryIds m).Nodup) : (registryIds (insertWindow m w)).Nodup := by
  simp only [insertWindow]
  by_cases hany : m.any (fun x => x.id = w.id)
  · simp only [hany, if_true]
    have : registryIds (m.map (fun x => if x.id = w.id then w else x)) =
        registryIds m := by
      simp only [registryIds, List.map_map]
      apply List.map_congr_left
      intro x _
      by_cases hcase : x.id = w.id
      · simp [hcase]
      · simp [hcase]
    rw [this]
    exact h
  · rw [if_neg hany]
    have hnotmem : w.id ∉ registryIds m := by
      intro hmem
      rcases List.mem_map.mp hmem with ⟨x, hx, hid⟩
      exact hany (List.any_eq_true.mpr ⟨x, hx, decide_eq_true hid⟩)
    simp only [registryIds, List.map_append, List.map_cons, List.map_nil]
    exact List.Nodup.append h (List.nodup_singleton _)
      (by
        intro a ha hb
        simp only [List.mem_singleton] at hb
        subst hb
        exact hnotmem ha)

/-- Ids after the create drain: previous ids plus spawned ids. -/
theorem mem_registryIds_drainCreates (creates : List WindowState) (m : Registry)
    (i : Nat) :
    i ∈ registryIds (drainCreates m creates) ↔
      i ∈ registryIds m ∨ i ∈ creates.map (fun w => w.id) := by
  induction creates generalizing m with
  | nil => simp [drainCreates]
  | cons c rest ih =>
    simp only [drainCreates, List.foldl_cons] at *
    rw [ih (insertWindow m c)]
    rw [mem_registryIds_insertWindow]
    simp only [List.map_cons, List.mem_cons]
    tauto

/-- The create drain preserves distinctness of the registered ids. -/
theorem nodup_registryIds_drainCreates (creates : List WindowState) (m : Registry)
    (h : (registryIds m).Nodup) : (registryIds (drainCreates m creates)).Nodup := by
  induction creates generalizing m with
  | nil => exact h
  | cons c rest ih =>
    simp only [drainCreates, List.foldl_cons]
    exact ih (insertWindow m c) (nodup_registryIds_insertWindow m c h)

/-- A registered id can be removed. -/
theorem removeWindow_isSome (m : Registry) (i : Nat) (h : i ∈ registryIds m) :
    ∃ w m', removeWindow m i = some (w, m') := by
  simp only [removeWindow]
  cases hl : lookupWindow m i with
  | none => exact absurd h ((lookupWindow_eq_none_iff m i).mp hl)
  | some w => exact ⟨w, _, rfl⟩

/-- Ids after `removeWindow`: everything previous except the removed id. -/
theorem mem_registryIds_removeWindow (m : Registry) (i : Nat) (w : WindowState)
    (m' : Registry) (h : removeWindow m i = some (w, m')) (j : Nat) :
    j ∈ registryIds m' ↔ j ∈ registryIds m ∧ ¬ j = i := by
  simp only [removeWindow] at h
  cases hl : lookupWindow m i with
  | none => simp [hl] at h
  | some v =>
    simp only [hl, Option.some.injEq, Prod.mk.injEq] at h
    obtain ⟨-, hm'⟩ := h
    subst hm'
    simp only [registryIds, List.mem_map, List.mem_filter, decide_eq_true_eq]
    constructor
    · rintro ⟨x, ⟨hx, hnot⟩, hid⟩
      subst hid
      exact ⟨⟨x, hx, rfl⟩, hnot⟩
    · rintro ⟨⟨x, hx, hid⟩, hnot⟩
      subst hid
      exact ⟨x, ⟨hx, hnot⟩, rfl⟩

/-- `removeWindow` preserves distinctness of the registered ids. -/
theorem nodup_registryIds_removeWindow (m : Registry) (i : Nat) (w : WindowState)
    (m' : Registry) (h : removeWindow m i = some (w, m'))
    (hnd : (registryIds m).Nodup) : (registryIds m').Nodup := by
  simp only [removeWindow] at h
  cases hl : lookupWindow m i with
  | none => simp [hl] at h
  | some v =>
    simp only [hl, Option.some.injEq, Prod.mk.injEq] at h
    obtain ⟨-, hm'⟩ := h
    subst hm'
    simp only [registryIds]
    exact List.Nodup.sublist ((List.filter_sublist m).map (fun w => w.id)) hnd

end RegistryLemmas

section DrainLemmas

/-- The destroy drain succeeds when the queued ids are distinct and all
registered, removes exactly those ids, and fires `on_destroy` once per
queued id in queue order. -/
theorem drainDestroys_spec (destroys : List Nat) :
    ∀ m : Registry, destroys.Nodup → (∀ i ∈ destroys, i ∈ registryIds m) →
    ∃ final, drainDestroys m destroys = some (final, destroys) ∧
      (∀ j, j ∈ registryIds final ↔ j ∈ registryIds m ∧ j ∉ destroys) ∧
      ((registryIds m).Nodup → (registryIds final).Nodup) := by
  induction destroys with
  | nil =>
    intro m _ _
    exact ⟨m, rfl, by simp, fun h => h⟩
  | cons d rest ih =>
    intro m hnd hmem
    obtain ⟨w, m', hrm⟩ := removeWindow_isSome m d (hmem d (by simp))
    have hrest_mem : ∀ i ∈ rest, i ∈ registryIds m' := by
      intro i hi
      rw [mem_registryIds_removeWindow m d w m' hrm i]
      refine ⟨hmem i (by simp [hi]), ?_⟩
      intro hid
      subst hid
      exact (List.nodup_cons.mp hnd).1 hi
    obtain ⟨final, hdd, hiff, hnds⟩ := ih m' (List.nodup_cons.mp hnd).2 hrest_mem
    refine ⟨final, ?_, ?_, ?_⟩
    · simp [drainDestroys, hrm, hdd]
    · intro j
      rw [hiff j, mem_registryIds_removeWindow m d w m' hrm j]
      simp only [List.mem_cons]
      tauto
    · intro hn
      exact hnds (nodup_registryIds_removeWindow m d w m' hrm hn)

/-- Draining a queue that holds an id not (or no longer) in the registry is
fatal: the model of `expect("cannot destroy a window twice")`. -/
theorem drainDestroys_none_of_absent (q : List Nat) :
    ∀ (m : Registry) (i : Nat), i ∈ q → i ∉ registryIds m →
      drainDestroys m q = none := by
  induction q with
  | nil =>
    intro m i hi _
    simp at hi
  | cons h rest ih =>
    intro m i hi hnot
    by_cases hh : h = i
    · subst hh
      have hl : lookupWindow m h = none := (lookupWindow_eq_none_iff m h).mpr hnot
      simp [drainDestroys, removeWindow, hl]
    · rcases List.mem_cons.mp hi with heq | hmem
      · exact absurd heq.symm hh
      · cases hrm : removeWindow m h with
        | none => simp [drainDestroys, hrm]
        | some p =>
          obtain ⟨w, m'⟩ := p
          have hnot' : i ∉ registryIds m' := by
            rw [mem_registryIds_removeWindow m h w m' hrm i]
            tauto
          simp [drainDestroys, hrm, ih m' i hmem hnot']

/-- Draining a queue holding the same id twice is fatal, regardless of the
registry contents: the first removal takes the id out (or is itself fatal),
so the second removal always hits the double-destroy panic. -/
theorem drainDestroys_none_of_dup (q : List Nat) :
    ∀ (m : Registry) (i : Nat), 2 ≤ q.count i → drainDestroys m q = none := by
  induction q with
  | nil =>
    intro m i h
    simp at h
  | cons h rest ih =>
    intro m i hcount
    by_cases hh : i = h
    · subst hh
      have hrest : i ∈ rest := by
        rw [List.count_cons_self] at hcount
        have : 1 ≤ rest.count i := by omega
        exact List.count_pos_iff.mp this
      cases hrm : removeWindow m i with
      | none => simp [drainDestroys, hrm]
      | some p =>
        obtain ⟨w, m'⟩ := p
        have hgone : i ∉ registryIds m' := by
          rw [mem_registryIds_removeWindow m i w m' hrm i]
          tauto
        simp [drainDestroys, hrm,
          drainDestroys_none_of_absent rest m' i hrest hgone]
    · have hcount' : 2 ≤ rest.count i := by
        rw [List.count_cons] at hcount
        simpa [show ¬ h = i from fun e => hh e.symm] using hcount
      cases hrm : removeWindow m h with
      | none => simp [drainDestroys, hrm]
      | some p =>
        obtain ⟨w, m'⟩ := p
        simp [drainDestroys, hrm, ih m' i hcount']

end DrainLemmas

section Claims

set_option maxRecDepth 8000

/-- C1: for every sequence of spawn and destroy requests issued from within
handlers during one iteration, the registry after the end-of-iteration drain
contains exactly the previous entries, minus the destroyed ids, plus the
newly spawned ids (creates are applied before destroys, so an id both
spawned and destroyed ends up absent), with no duplicate ids; the pending
create list is fully consumed by the drain, so afterwards no id is in both
the registry and the pending list. -/
theorem C1_registry_after_drain (windows : Registry) (creates : List WindowState)
    (destroys : List Nat)
    (hw : (registryIds windows).Nodup)
    (hd : destroys.Nodup)
    (hmem : ∀ i ∈ destroys,
      i ∈ registryIds windows ∨ i ∈ creates.map (fun w => w.id)) :
    ∃ r : DrainResult, endOfIteration windows creates destroys = some r ∧
      (∀ i, i ∈ registryIds r.windows ↔
        ((i ∈ registryIds windows ∨ i ∈ creates.map (fun w => w.id)) ∧
          i ∉ destroys)) ∧
      (registryIds r.windows).Nodup ∧
      (∀ i, ¬(i ∈ registryIds r.windows ∧ i ∈ registryIds r.creates)) := by
  have hmid_mem : ∀ i ∈ destroys,
      i ∈ registryIds (drainCreates windows creates) := by
    intro i hi
    rw [mem_registryIds_drainCreates]
    exact hmem i hi
  obtain ⟨final, hdd, hiff, hnds⟩ :=
    drainDestroys_spec destroys (drainCreates windows creates) hd hmid_mem
  refine ⟨⟨final, [], [], destroys⟩, ?_, ?_, ?_, ?_⟩
  · simp [endOfIteration, hdd]
  · intro i
    show i ∈ registryIds final ↔ _
    rw [hiff i, mem_registryIds_drainCreates]
  · show (registryIds final).Nodup
    exact hnds (nodup_registryIds_drainCreates creates windows hw)
  · intro i
    show ¬(i ∈ registryIds final ∧ i ∈ registryIds [])
    simp [registryIds]

/-- Witness for C1 at a concrete input: one registered window, nothing
spawned, window 1 destroyed. -/
theorem C1_registry_after_drain_witness :
    ∃ r : DrainResult, endOfIteration [w800] [] [1] = some r ∧
      (∀ i, i ∈ registryIds r.windows ↔
        ((i ∈ registryIds [w800] ∨
            i ∈ ([] : List WindowState).map (fun w => w.id)) ∧
          i ∉ [1])) ∧
      (registryIds r.windows).Nodup ∧
      (∀ i, ¬(i ∈ registryIds r.windows ∧ i ∈ registryIds r.creates)) :=
  C1_registry_after_drain [w800] [] [1] (by decide) (by decide) (by decide)

/-- C2: a window spawned and then destroyed within the same iteration is
inserted into the registry by the create drain and then removed by the
destroy drain, receiving `on_destroy` exactly once, rather than being
silently dropped: creates are always applied before destroys. -/
theorem C2_create_then_destroy (windows : Registry) (creates : List WindowState)
    (destroys : List Nat) (w : WindowState)
    (hcw : w ∈ creates)
    (hd : destroys.Nodup)
    (hwid : w.id ∈ destroys)
    (hmem : ∀ i ∈ destroys,
      i ∈ registryIds windows ∨ i ∈ creates.map (fun x => x.id)) :
    w.id ∈ registryIds (drainCreates windows creates) ∧
    ∃ r : DrainResult, endOfIteration windows creates destroys = some r ∧
      w.id ∉ registryIds r.windows ∧ r.destroyed.count w.id = 1 := by
  have hmid_mem : ∀ i ∈ destroys,
      i ∈ registryIds (drainCreates windows creates) := by
    intro i hi
    rw [mem_registryIds_drainCreates]
    exact hmem i hi
  obtain ⟨final, hdd, hiff, -⟩ :=
    drainDestroys_spec destroys (drainCreates windows creates) hd hmid_mem
  constructor
  · rw [mem_registryIds_drainCreates]
    exact Or.inr (List.mem_map.mpr ⟨w, hcw, rfl⟩)
  · refine ⟨⟨final, [], [], destroys⟩, by simp [endOfIteration, hdd], ?_, ?_⟩
    · show w.id ∉ registryIds final
      rw [hiff w.id]
      tauto
    · show destroys.count w.id = 1
      exact List.count_eq_one_of_mem hd hwid

/-- Witness for C2 at a concrete input: an empty registry, window 1 spawned
during the iteration and destroyed in the same iteration. -/
theorem C2_create_then_destroy_witness :
    w800.id ∈ registryIds (drainCreates [] [w800]) ∧
    ∃ r : DrainResult, endOfIteration [] [w800] [1] = some r ∧
      w800.id ∉ registryIds r.windows ∧ r.destroyed.count w800.id = 1 :=
  C2_create_then_destroy [] [w800] [1] w800 (by decide) (by decide) (by decide)
    (by decide)

/-- C3 counterexample: two `Window::destroy` calls on window 1 before any
drain enqueue the id twice without deduplication, and the very next drain
hits the `expect("cannot destroy a window twice")` fatal error — the claim
says this case must not fatal-error. -/
theorem C3_counterexample :
    drainDestroys [w800] (windowDestroy (windowDestroy [] 1) 1) = none := by
  decide

/-- C3 amended: duplicate destroy enqueues are not deduplicated; a queue
holding the same id twice makes the next drain fatal-error, exactly like a
second destroy enqueued after the id's first drain (an id no longer
registered). -/
theorem C3_double_destroy_always_fatal (m : Registry) (q : List Nat) (i : Nat)
    (h : 2 ≤ q.count i ∨ (i ∈ q ∧ i ∉ registryIds m)) :
    drainDestroys m q = none := by
  rcases h with h | ⟨h1, h2⟩
  · exact drainDestroys_none_of_dup q m i h
  · exact drainDestroys_none_of_absent q m i h1 h2

/-- Witness for the amended C3 at a concrete input. -/
theorem C3_double_destroy_always_fatal_witness :
    drainDestroys [w800] [1, 1] = none :=
  C3_double_destroy_always_fatal [w800] [1, 1] 1 (Or.inl (by decide))

/-- C4 counterexample: window 1 holds a repeat tracker for `inputA`; a
key-down for a different raw event `inputB` arrives. The claim says `on_key`
is invoked with "pressed" and a fresh tracker is started; the code instead
invokes no handler at all and leaves the tracker unchanged (the inner
`if repeated_key == input` has no `else` arm). -/
theorem C4_counterexample :
    dispatchEvent [wTrackA] []
        (Event.WindowEvent 1 (WindowEventKind.KeyboardInput inputB)) true =
      some ⟨[wTrackA], [], [], false, true⟩ := by
  decide

/-- C4 amended: on key-down, if the tracker exists and the raw event matches
it, `on_key` fires with the repeat count incremented by one (a wrapping
`u16` increment) and the tracker is updated; if no tracker exists, `on_key`
fires with "pressed" and a fresh tracker starts at count zero; if a tracker
exists but the raw event does not match it, the event is ignored (no
`on_key`, tracker unchanged). On key-up, `on_key` fires with "released" and
the tracker is cleared. -/
theorem C4_key_events (windows : Registry) (dq : List Nat) (i : Nat)
    (ws : WindowState) (input : KeyboardInput) (vk : WinitVirtualKeyCode)
    (resp : Bool)
    (hlook : lookupWindow windows i = some ws)
    (hvk : input.virtual_keycode = some vk) :
    (input.state = ElementState.Pressed → ws.repeated_key = none →
      dispatchEvent windows dq
          (Event.WindowEvent i (WindowEventKind.KeyboardInput input)) resp =
        some ⟨updateWindow windows i (setRepeatedKey (some (input, 0))), dq,
              [Callback.on_key i (translateKey vk) ButtonState.Pressed],
              false, true⟩) ∧
    (∀ rk c, input.state = ElementState.Pressed →
      ws.repeated_key = some (rk, c) → rk = input →
      dispatchEvent windows dq
          (Event.WindowEvent i (WindowEventKind.KeyboardInput input)) resp =
        some ⟨updateWindow windows i
                (setRepeatedKey (some (input, (c + 1) % 65536))), dq,
              [Callback.on_key i (translateKey vk)
                  (ButtonState.Repeated ((c + 1) % 65536))],
              false, true⟩) ∧
    (∀ rk c, input.state = ElementState.Pressed →
      ws.repeated_key = some (rk, c) → ¬ rk = input →
      dispatchEvent windows dq
          (Event.WindowEvent i (WindowEventKind.KeyboardInput input)) resp =
        some ⟨windows, dq, [], false, true⟩) ∧
    (input.state = ElementState.Released →
      dispatchEvent windows dq
          (Event.WindowEvent i (WindowEventKind.KeyboardInput input)) resp =
        some ⟨updateWindow windows i (setRepeatedKey none), dq,
              [Callback.on_key i (translateKey vk) ButtonState.Released],
              false, true⟩) := by
  refine ⟨?_, ?_, ?_, ?_⟩
  · intro h1 h2
    simp [dispatchEvent, hlook, hvk, h1, h2]
  · intro rk c h1 h2 h3
    subst h3
    simp [dispatchEvent, hlook, hvk, h1, h2]
  · intro rk c h1 h2 h3
    simp [dispatchEvent, hlook, hvk, h1, h2, h3]
  · intro h1
    simp [dispatchEvent, hlook, hvk, h1]

/-- Witness for the amended C4 at a concrete input: first press of the A key
on a window with no tracker. -/
theorem C4_key_events_witness :
    dispatchEvent [w800] []
        (Event.WindowEvent 1 (WindowEventKind.KeyboardInput inputA)) true =
      some ⟨updateWindow [w800] 1 (setRepeatedKey (some (inputA, 0))), [],
            [Callback.on_key 1 (translateKey WinitVirtualKeyCode.A)
                ButtonState.Pressed],
            false, true⟩ :=
  (C4_key_events [w800] [] 1 w800 inputA WinitVirtualKeyCode.A true (by decide)
      (by decide)).1 (by decide) (by decide)

/-- C5: delivering `Resized(1024×600)` to window 1, whose recorded extent is
800×600, fires `on_resize` but returns the registry unchanged — the code
never writes the new size back into `window_state.extent` — so delivering
the identical size report again fires `on_resize` a second time, where the
claim requires the recorded extent to be updated and the identical
consecutive report to produce no notification. -/
theorem C5_resize_extent_never_updated :
    dispatchEvent [w800] []
        (Event.WindowEvent 1 (WindowEventKind.Resized ⟨1024, 600⟩)) true =
      some resize1024Result ∧
    dispatchEvent resize1024Result.windows []
        (Event.WindowEvent 1 (WindowEventKind.Resized ⟨1024, 600⟩)) true =
      some resize1024Result := by
  decide

/-- C6: a close request on a registered window invokes `on_close_request`;
when the handler allows, the window's id is appended to the deferred-destroy
queue and the registry is untouched (the window stays registered); when the
handler denies, nothing is enqueued and the registry is untouched. -/
theorem C6_close_request (windows : Registry) (dq : List Nat) (i : Nat)
    (ws : WindowState) (resp : Bool)
    (hlook : lookupWindow windows i = some ws) :
    dispatchEvent windows dq (Event.WindowEvent i WindowEventKind.CloseRequested)
        resp =
      some ⟨windows, if resp then dq ++ [i] else dq,
            [Callback.on_close_request i], false, true⟩ := by
  cases resp with
  | true => simp [dispatchEvent, hlook]
  | false => simp [dispatchEvent, hlook]

/-- Witness for C6 at a concrete input: handler allows the close. -/
theorem C6_close_request_witness :
    dispatchEvent [w800] [] (Event.WindowEvent 1 WindowEventKind.CloseRequested)
        true =
      some ⟨[w800], if true then [] ++ [1] else [],
            [Callback.on_close_request 1], false, true⟩ :=
  C6_close_request [w800] [] 1 w800 true (by decide)

/-- C7: a window event whose target id is not registered is dropped
silently: no handler is invoked, the registry and both buffers are returned
unchanged (the early return even skips the end-of-iteration drain), and the
exit flag is set exactly when the registry is empty at that point. -/
theorem C7_unknown_id_event_dropped (windows : Registry)
    (creates : List WindowState) (dq : List Nat) (i : Nat)
    (wev : WindowEventKind) (resp : Bool)
    (hlook : lookupWindow windows i = none) :
    runIteration windows creates dq (Event.WindowEvent i wev) resp =
      some ⟨windows, creates, dq, [], windows.isEmpty⟩ := by
  simp [runIteration, dispatchEvent, hlook]

/-- Witness for C7 at a concrete input: an event for window 7 reaching an
empty registry is dropped and the exit flag is set. -/
theorem C7_unknown_id_event_dropped_witness :
    runIteration [] [] [] (Event.WindowEvent 7 WindowEventKind.CloseRequested)
        true =
      some ⟨[], [], [], [], ([] : Registry).isEmpty⟩ :=
  C7_unknown_id_event_dropped [] [] [] 7 WindowEventKind.CloseRequested true
    (by decide)

/-- C8: a redraw request for a registered window invokes `on_redraw` on it;
a redraw request naming an id not in the registry is fatal (the
`expect("the window must exist ..")` panic), not recovered. -/
theorem C8_redraw_dispatch (windows : Registry) (dq : List Nat) (i : Nat)
    (resp : Bool) :
    (lookupWindow windows i = none →
      dispatchEvent windows dq (Event.RedrawRequested i) resp = none) ∧
    (∀ ws, lookupWindow windows i = some ws →
      dispatchEvent windows dq (Event.RedrawRequested i) resp =
        some ⟨windows, dq, [Callback.on_redraw i], false, true⟩) := by
  constructor
  · intro h
    simp [dispatchEvent, h]
  · intro ws h
    simp [dispatchEvent, h]

/-- Witness for C8 at concrete inputs: a redraw for an unregistered id is
fatal; a redraw for the registered window 1 fires `on_redraw`. -/
theorem C8_redraw_dispatch_witness :
    dispatchEvent ([] : Registry) [] (Event.RedrawRequested 1) true = none ∧
    dispatchEvent [w800] [] (Event.RedrawRequested 1) true =
      some ⟨[w800], [], [Callback.on_redraw 1], false, true⟩ :=
  ⟨(C8_redraw_dispatch [] [] 1 true).1 (by decide),
   (C8_redraw_dispatch [w800] [] 1 true).2 w800 (by decide)⟩

/-- C9 counterexample: the winit `Compose` key is in the raw code's valid
range but has no symbolic mapping — its `KEY_MAP` entry is the `Invalid`
sentinel — yet the event is not dropped: the handler is invoked with
`Invalid`, contradicting the claim that no handler is invoked for codes
without a symbolic mapping. -/
theorem C9_counterexample :
    translateKey WinitVirtualKeyCode.Compose = VirtualKeyCode.Invalid ∧
    dispatchEvent [w800] []
        (Event.WindowEvent 1 (WindowEventKind.KeyboardInput composeInput)) true =
      some ⟨updateWindow [w800] 1 (setRepeatedKey (some (composeInput, 0))), [],
            [Callback.on_key 1 VirtualKeyCode.Invalid ButtonState.Pressed],
            false, true⟩ := by
  decide

/-- C9 amended: a keyboard event carrying no raw key code at all is dropped
silently — no handler invoked, no state changed, and the early return skips
the drain; an in-range raw code with no symbolic mapping is translated to
the explicit `Invalid` sentinel and the handler is invoked with it rather
than the event failing or being dropped. -/
theorem C9_unresolved_key_dropped (windows : Registry) (dq : List Nat) (i : Nat)
    (ws : WindowState) (input : KeyboardInput) (resp : Bool)
    (hlook : lookupWindow windows i = some ws) :
    (input.virtual_keycode = none →
      dispatchEvent windows dq
          (Event.WindowEvent i (WindowEventKind.KeyboardInput input)) resp =
        some ⟨windows, dq, [], false, false⟩) ∧
    (∀ vk, input.virtual_keycode = some vk →
      translateKey vk = VirtualKeyCode.Invalid →
      input.state = ElementState.Pressed → ws.repeated_key = none →
      dispatchEvent windows dq
          (Event.WindowEvent i (WindowEventKind.KeyboardInput input)) resp =
        some ⟨updateWindow windows i (setRepeatedKey (some (input, 0))), dq,
              [Callback.on_key i VirtualKeyCode.Invalid ButtonState.Pressed],
              false, true⟩) := by
  constructor
  · intro h
    simp [dispatchEvent, hlook, h]
  · intro vk hvk hmap hstate hrk
    simp [dispatchEvent, hlook, hvk, hmap, hstate, hrk]

/-- Witness for the amended C9 at concrete inputs: an event with no raw key
code is dropped; a `Compose` key-down reaches the handler as `Invalid`. -/
theorem C9_unresolved_key_dropped_witness :
    (dispatchEvent [w800] []
        (Event.WindowEvent 1 (WindowEventKind.KeyboardInput noKeyInput)) true =
      some ⟨[w800], [], [], false, false⟩) ∧
    dispatchEvent [w800] []
        (Event.WindowEvent 1 (WindowEventKind.KeyboardInput composeInput)) true =
      some ⟨updateWindow [w800] 1 (setRepeatedKey (some (composeInput, 0))), [],
            [Callback.on_key 1 VirtualKeyCode.Invalid ButtonState.Pressed],
            false, true⟩ :=
  ⟨(C9_unresolved_key_dropped [w800] [] 1 w800 noKeyInput true (by decide)).1
      (by decide),
   (C9_unresolved_key_dropped [w800] [] 1 w800 composeInput true (by decide)).2
      WinitVirtualKeyCode.Compose (by decide) (by decide) (by decide) (by decide)⟩

/-- C10: every winit virtual key code converts to an index strictly below
163, and `KEY_MAP` has exactly 163 entries, so the `KEY_MAP[vk as usize]`
lookup in keyboard dispatch is always in bounds and never panics. -/
theorem C10_key_map_lookup_in_bounds :
    KEY_MAP.length = 163 ∧
    ∀ k : WinitVirtualKeyCode, k.toCtorIdx < KEY_MAP.length := by
  have hlen : KEY_MAP.length = 163 := by decide
  refine ⟨hlen, fun k => ?_⟩
  rw [hlen]
  cases k <;> decide

end Claims

end Glimmer
